import Mathlib

/-!
Verification of `buildscripts/monitor_build_status/cli.py`: the branch-health
traffic-light evaluator.  Shallow embedding: Python floats computed by
`bf_count / threshold * 100` are modelled as exact rationals (`ℚ`); datetimes
are modelled as integer seconds since the Unix epoch (UTC); exceptions
(`KeyError`, `StatisticsError`) are modelled with `Option` / `Except`.
-/

namespace MonitorBuildStatus

/-- `TestType` enumeration from `jira_service.py` as used by `cli.py`. -/
inductive TestType
  | CORRECTNESS
  | PERFORMANCE
deriving DecidableEq, Repr

/-- `BfTemperature` enumeration from `jira_service.py` as used by `cli.py`:
`NONE` means "not yet classified". -/
inductive BfTemperature
  | HOT
  | COLD
  | NONE
deriving DecidableEq, Repr

/-- A build-failure ticket record: identifier, assigned team (sentinel string
for unassigned), test type, temperature, associated Evergreen projects. -/
structure BfIssue where
  key : String
  assigned_team : String
  test_type : TestType
  temperature : BfTemperature
  evergreen_projects : List String
deriving DecidableEq, Repr

/-- `EvgProjectsInfo`: a mapping from branch name to the projects that track
it, plus the set of active project names (dictionary as association list). -/
structure EvgProjectsInfo where
  branch_to_projects_map : List (String × List String)
  active_project_names : List String
deriving DecidableEq, Repr

/-- Modelled from the spec: the construction of `EvgProjectsInfo`
(`evergreen_service.py`, not under `src/`).  Per the spec's data model it is
"a mapping from branch name to the set of CI project identifiers that track
it, plus the set of 'active' project identifiers used to scope the ticket
query": the map is obtained by grouping the active projects by the branch
each one tracks, so a branch has an entry exactly when at least one active
project tracks it.  Input: `(project name, tracked branch)` pairs for the
active projects. -/
def evgProjectsInfoFromActiveProjects (activeProjects : List (String × String)) :
    EvgProjectsInfo :=
  { branch_to_projects_map :=
      ((activeProjects.map Prod.snd).dedup).map
        (fun br => (br, (activeProjects.filter (fun p => p.snd == br)).map Prod.fst))
    active_project_names := activeProjects.map Prod.fst }

/-- Modelled from the spec: `BFsReport` (`bfs_report.py`, not under `src/`).
Per the spec's §4.1 contract it holds the classified tickets and the set of
all assigned teams seen so far; `add_bf_data` folds one ticket in (tickets
outside the branch's active-project set are excluded at ingestion);
`get_bf_count` counts, on demand, the tickets whose test type and temperature
lie in the given sets, optionally restricted to one team. -/
structure BFsReport where
  tickets : List BfIssue
  all_assigned_teams : List String
deriving DecidableEq, Repr

/-- `BFsReport.empty()`: created empty at the start of a run. -/
def BFsReport.empty : BFsReport :=
  { tickets := [], all_assigned_teams := [] }

/-- `BFsReport.add_bf_data(bf, evg_projects_info)` (modelled from the spec,
see `BFsReport`): record the ticket if any of its Evergreen projects is in
the active set, and add its team to the set of all assigned teams. -/
def BFsReport.add_bf_data (r : BFsReport) (bf : BfIssue) (info : EvgProjectsInfo) :
    BFsReport :=
  if bf.evergreen_projects.any (fun p => info.active_project_names.contains p) then
    { tickets := r.tickets ++ [bf]
      all_assigned_teams :=
        if r.all_assigned_teams.contains bf.assigned_team then r.all_assigned_teams
        else r.all_assigned_teams ++ [bf.assigned_team] }
  else r

/-- `BFsReport.get_bf_count(test_types, bf_temperatures, assigned_team)`
(modelled from the spec, see `BFsReport`): pure predicate-based count. -/
def BFsReport.get_bf_count (r : BFsReport) (test_types : List TestType)
    (bf_temperatures : List BfTemperature) (assigned_team : Option String) : Nat :=
  (r.tickets.filter (fun bf =>
    test_types.contains bf.test_type && bf_temperatures.contains bf.temperature &&
      match assigned_team with
      | none => true
      | some team => bf.assigned_team == team)).length

/-- `_make_bfs_report` of `cli.py` without the Jira query: fold the fetched
tickets into an initially empty report. -/
def makeBfsReport (active_bfs : List BfIssue) (info : EvgProjectsInfo) : BFsReport :=
  active_bfs.foldl (fun r bf => r.add_bf_data bf info) BFsReport.empty

/-! Threshold constants of `cli.py`. -/

def OVERALL_HOT_BF_COUNT_THRESHOLD : Nat := 30

def OVERALL_COLD_BF_COUNT_THRESHOLD : Nat := 100

def OVERALL_PERF_BF_COUNT_THRESHOLD : Nat := 30

def PER_TEAM_HOT_BF_COUNT_THRESHOLD : Nat := 7

def PER_TEAM_COLD_BF_COUNT_THRESHOLD : Nat := 20

def PER_TEAM_PERF_BF_COUNT_THRESHOLD : Nat := 10

def EVERGREEN_LOOKBACK_DAYS : Nat := 14

/-- `_make_status_msg(scope_, bf_type, bf_count, threshold)` from
`_get_bf_counts_status`: computes `bf_count / threshold * 100` and renders the
status line; returned as (line, percentage) instead of mutating a list. -/
def makeStatusMsg (scope_ : String) (bf_type : String) (bf_count : Nat)
    (threshold : Nat) : String × ℚ :=
  let percentage : ℚ := (bf_count : ℚ) / (threshold : ℚ) * 100
  (s!"{scope_} {bf_type} BFs: {bf_count} ({percentage}% of threshold {threshold})",
    percentage)

/-- Overall Hot count: `get_bf_count([CORRECTNESS], [HOT])`. -/
def overallHotBfCount (r : BFsReport) : Nat :=
  r.get_bf_count [TestType.CORRECTNESS] [BfTemperature.HOT] none

/-- Overall Cold count: `get_bf_count([CORRECTNESS], [COLD, NONE])`. -/
def overallColdBfCount (r : BFsReport) : Nat :=
  r.get_bf_count [TestType.CORRECTNESS] [BfTemperature.COLD, BfTemperature.NONE] none

/-- Overall Perf count: `get_bf_count([PERFORMANCE], [HOT, COLD, NONE])`. -/
def overallPerfBfCount (r : BFsReport) : Nat :=
  r.get_bf_count [TestType.PERFORMANCE]
    [BfTemperature.HOT, BfTemperature.COLD, BfTemperature.NONE] none

/-- The per-team maximum loop of `_get_bf_counts_status`: the source updates
the three category maxima inside a single `for team in all_assigned_teams`
loop; the three running maxima are independent, so each is the same fold over
the team list, abstracted here over the category's filter lists. -/
def maxPerTeamCount (r : BFsReport) (test_types : List TestType)
    (bf_temperatures : List BfTemperature) : Nat :=
  r.all_assigned_teams.foldl
    (fun max_count team =>
      let c := r.get_bf_count test_types bf_temperatures (some team)
      if c > max_count then c else max_count)
    0

/-- Max-per-team Hot count. -/
def maxPerTeamHotBfCount (r : BFsReport) : Nat :=
  maxPerTeamCount r [TestType.CORRECTNESS] [BfTemperature.HOT]

/-- Max-per-team Cold count. -/
def maxPerTeamColdBfCount (r : BFsReport) : Nat :=
  maxPerTeamCount r [TestType.CORRECTNESS] [BfTemperature.COLD, BfTemperature.NONE]

/-- Max-per-team Perf count. -/
def maxPerTeamPerfBfCount (r : BFsReport) : Nat :=
  maxPerTeamCount r [TestType.PERFORMANCE]
    [BfTemperature.HOT, BfTemperature.COLD, BfTemperature.NONE]

/-- The six BF counts of a run, in the order the source computes them. -/
def sixCounts (r : BFsReport) : Nat × Nat × Nat × Nat × Nat × Nat :=
  (overallHotBfCount r, overallColdBfCount r, overallPerfBfCount r,
    maxPerTeamHotBfCount r, maxPerTeamColdBfCount r, maxPerTeamPerfBfCount r)

/-- `_get_bf_counts_status(bfs_report)`: the status text and the list of the
six threshold percentages, appended in source order (overall Hot, Cold, Perf,
then max-per-team Hot, Cold, Perf). -/
def getBfCountsStatus (r : BFsReport) : String × List ℚ :=
  let oh := makeStatusMsg "Overall" "Hot" (overallHotBfCount r) OVERALL_HOT_BF_COUNT_THRESHOLD
  let oc := makeStatusMsg "Overall" "Cold" (overallColdBfCount r) OVERALL_COLD_BF_COUNT_THRESHOLD
  let op := makeStatusMsg "Overall" "Perf" (overallPerfBfCount r) OVERALL_PERF_BF_COUNT_THRESHOLD
  let th := makeStatusMsg "Max per Assigned Team" "Hot" (maxPerTeamHotBfCount r) PER_TEAM_HOT_BF_COUNT_THRESHOLD
  let tc := makeStatusMsg "Max per Assigned Team" "Cold" (maxPerTeamColdBfCount r) PER_TEAM_COLD_BF_COUNT_THRESHOLD
  let tp := makeStatusMsg "Max per Assigned Team" "Perf" (maxPerTeamPerfBfCount r) PER_TEAM_PERF_BF_COUNT_THRESHOLD
  ("`[STATUS]` The current BF count" ++
      "\n" ++ oh.1 ++ "\n" ++ oc.1 ++ "\n" ++ op.1 ++
      "\n" ++ th.1 ++ "\n" ++ tc.1 ++ "\n" ++ tp.1,
    [oh.2, oc.2, op.2, th.2, tc.2, tp.2])

/-- The list of the six threshold percentages only (second component of
`getBfCountsStatus`). -/
def bfCountPercentages (r : BFsReport) : List ℚ :=
  (getBfCountsStatus r).2

/-- The tri-state verdict. -/
inductive Verdict
  | RED
  | YELLOW
  | GREEN
deriving DecidableEq, Repr

/-- The verdict classification of `evaluate_build_redness` (lines 101-118 of
`cli.py`): RED if `any(percentage > 100)`, else GREEN if
`all(percentage < 50)`, else YELLOW. -/
def computeVerdict (threshold_percentages : List ℚ) : Verdict :=
  if threshold_percentages.any (fun percentage => decide (percentage > 100)) then
    Verdict.RED
  else if threshold_percentages.all (fun percentage => decide (percentage < 50)) then
    Verdict.GREEN
  else
    Verdict.YELLOW

/-- The `[ACTION]` line appended for each verdict. -/
def actionLine : Verdict → String
  | Verdict.RED =>
      "`[ACTION]` RED: At least one metric exceeds 100% of its threshold." ++
        " Lock the branch if it is not already."
  | Verdict.GREEN =>
      "`[ACTION]` GREEN: All metrics are within 50% of their thresholds." ++
        " The branch should be unlocked if it is not already."
  | Verdict.YELLOW =>
      "`[ACTION]` YELLOW: At least one metric exceeds 50% of its threshold," ++
        " but none exceed 100%. No action is required."

/-- Modelled from the spec: `TaskStatusCounts` (`evergreen_service.py`, not
under `src/`).  Per the spec's data model it is a value type
`{project identifier, succeeded count, failed count, ...}` with an associative
`add` that sums the counts field-wise, the project identifier carrying
through; the identity element has all counts zero. -/
structure TaskStatusCounts where
  project : String
  success : Nat
  failed : Nat
deriving DecidableEq, Repr

/-- `TaskStatusCounts.add` (modelled from the spec, see `TaskStatusCounts`):
field-wise sums, the receiver's project identifier carries through. -/
def TaskStatusCounts.add (a b : TaskStatusCounts) : TaskStatusCounts :=
  { project := a.project, success := a.success + b.success, failed := a.failed + b.failed }

/-- `TaskStatusCounts(project=name)`: the all-zero identity for a project. -/
def TaskStatusCounts.identity (name : String) : TaskStatusCounts :=
  { project := name, success := 0, failed := 0 }

/-- `_accumulate_project_statuses(evg_project_names, build_statuses)`: for each
active project, fold (via `add`) the build statuses whose project matches,
starting from the all-zero identity; one result per active project, builds of
other projects are discarded. -/
def accumulateProjectStatuses (evg_project_names : List String)
    (build_statuses : List TaskStatusCounts) : List TaskStatusCounts :=
  evg_project_names.map (fun evg_project_name =>
    build_statuses.foldl
      (fun project_status build_status =>
        if build_status.project == evg_project_name then project_status.add build_status
        else project_status)
      (TaskStatusCounts.identity evg_project_name))

/-- `waterfall_report[task_status_count.project].append(task_status_count)`:
dictionary lookup raises `KeyError` (here: `none`) when the project is not a
key of the report. -/
def appendByProject (report : List (String × List TaskStatusCounts))
    (task_status_count : TaskStatusCounts) :
    Option (List (String × List TaskStatusCounts)) :=
  if report.any (fun pr => pr.1 == task_status_count.project) then
    some (report.map (fun pr =>
      if pr.1 == task_status_count.project then (pr.1, pr.2 ++ [task_status_count])
      else pr))
  else
    none

/-- `_make_waterfall_report(evg_project_names, window_end)` with the per-day
external query results supplied as `day_results` (one entry per lookback day):
concatenate the per-day accumulations, then distribute them into the
dictionary `{name: [] for name in evg_project_names}` keyed by project.
The Python dict comprehension keeps one key per distinct name. -/
def makeWaterfallReport (evg_project_names : List String)
    (day_results : List (List TaskStatusCounts)) :
    Option (List (String × List TaskStatusCounts)) :=
  let task_status_counts :=
    day_results.foldl
      (fun acc waterfall_status =>
        acc ++ accumulateProjectStatuses evg_project_names waterfall_status)
      []
  let waterfall_report := (evg_project_names.dedup).map (fun name => (name, []))
  task_status_counts.foldlM appendByProject waterfall_report

/-- Modelled from the spec: Python's `statistics.median` (standard library,
outside this repository).  Sorts the data and returns the middle element (odd
length) or the mean of the two middle elements (even length); per the spec
"the median of an empty sequence must fail loudly rather than silently
default to zero" — `statistics.median` raises `StatisticsError` on empty
input, modelled as `Except.error`. -/
def median (data : List ℚ) : Except String ℚ :=
  if data.isEmpty then
    Except.error "StatisticsError: no median for empty data"
  else
    let s := data.mergeSort (fun a b => decide (a ≤ b))
    let n := data.length
    if n % 2 = 1 then Except.ok (s.getD (n / 2) 0)
    else Except.ok ((s.getD (n / 2 - 1) 0 + s.getD (n / 2) 0) / 2)

/-- `_get_waterfall_redness_status(waterfall_report, ...)`: for each project,
the median of its daily failed-task counts, one status line per project; a
`StatisticsError` from `median` aborts the run (propagates as `error`). -/
def getWaterfallRednessStatus (waterfall_report : List (String × List TaskStatusCounts)) :
    Except String String :=
  waterfall_report.foldlM
    (fun status_message pr =>
      let daily_red_box_counts := pr.2.map (fun c => (c.failed : ℚ))
      (median daily_red_box_counts).map
        (fun m => status_message ++ s!"\n{pr.1}: {m}"))
    "`[STATUS]` Evergreen waterfall red and purple boxes median count per day"

/-! Time-window arithmetic of `evaluate_build_redness` and
`_make_waterfall_report`.  Instants are integer seconds since the Unix epoch
(UTC); `%` is Lean's `Int.emod` (non-negative remainder), matching Python's
floor-mod. -/

def SECONDS_PER_DAY : Int := 86400

/-- `datetime.utcnow().replace(hour=0, minute=0, second=0, microsecond=0)`:
truncate the current instant to 00:00 UTC of its own day. -/
def startOfUtcDay (t : Int) : Int :=
  t - t % SECONDS_PER_DAY

/-- `window_end = <start of current UTC day> - timedelta(days=1)`. -/
def windowEnd (t : Int) : Int :=
  startOfUtcDay t - SECONDS_PER_DAY

/-- `window_start = window_end - timedelta(days=EVERGREEN_LOOKBACK_DAYS)`. -/
def windowStart (t : Int) : Int :=
  windowEnd t - (EVERGREEN_LOOKBACK_DAYS : Int) * SECONDS_PER_DAY

/-- The day-`d` sub-window of `_make_waterfall_report`:
`day_window_end = window_end - timedelta(days=day)`,
`day_window_start = day_window_end - timedelta(days=1)`; returned as the
half-open pair `(day_window_start, day_window_end)`. -/
def dayWindow (t : Int) (day : Nat) : Int × Int :=
  let day_window_end := windowEnd t - (day : Int) * SECONDS_PER_DAY
  let day_window_start := day_window_end - SECONDS_PER_DAY
  (day_window_start, day_window_end)

/-- The sub-windows iterated by `for day in range(EVERGREEN_LOOKBACK_DAYS)`,
most recent first. -/
def dayWindows (t : Int) : List (Int × Int) :=
  (List.range EVERGREEN_LOOKBACK_DAYS).map (dayWindow t)

/-- `evaluate_build_redness(repo, branch, notify)` with the external
collaborators abstracted: `info` is the result of `get_evg_project_info`,
`active_bfs` the tickets returned by the Jira query, and `day_query d` the
build statuses returned by `get_waterfall_status` for lookback day `d`.
Returns the status message and the verdict, or the error that aborted the
run.  The verdict is computed from `threshold_percentages`, which receives
exactly the `bf_count_percentages` of `_get_bf_counts_status`. -/
def evaluateBuildRedness (info : EvgProjectsInfo) (branch : String)
    (active_bfs : List BfIssue) (day_query : Nat → List TaskStatusCounts) :
    Except String (String × Verdict) :=
  match info.branch_to_projects_map.lookup branch with
  | none => Except.error "KeyError: branch not in branch_to_projects_map"
  | some evg_project_names =>
    let bfs_report := makeBfsReport active_bfs info
    let bf_counts_status := getBfCountsStatus bfs_report
    let threshold_percentages := bf_counts_status.2
    let day_results := (List.range EVERGREEN_LOOKBACK_DAYS).map day_query
    match makeWaterfallReport evg_project_names day_results with
    | none => Except.error "KeyError: project not in waterfall_report"
    | some waterfall_report =>
      match getWaterfallRednessStatus waterfall_report with
      | Except.error e => Except.error e
      | Except.ok waterfall_status_msg =>
        let verdict := computeVerdict threshold_percentages
        Except.ok
          (s!"`[STATUS]` repo branch {branch}" ++ "\n" ++ bf_counts_status.1 ++
            "\n" ++ waterfall_status_msg ++ "\n" ++ actionLine verdict,
            verdict)

/-- The verdict carried by a finished run, if any. -/
def verdictOf (result : Except String (String × Verdict)) : Option Verdict :=
  match result with
  | Except.ok res => some res.2
  | Except.error _ => none

/-! ### Helper lemmas -/

theorem computeVerdict_eq_RED_iff (ps : List ℚ) :
    computeVerdict ps = Verdict.RED ↔ ∃ p ∈ ps, p > 100 := by
  unfold computeVerdict
  split_ifs with h1 h2 <;> simp_all

theorem computeVerdict_eq_GREEN_iff (ps : List ℚ) (hle : ∀ p ∈ ps, p ≤ 100) :
    computeVerdict ps = Verdict.GREEN ↔ ∀ p ∈ ps, p < 50 := by
  unfold computeVerdict
  split_ifs with h1 h2 <;> simp_all
  obtain ⟨p, hp, hp100⟩ := h1
  exact absurd (hle p hp) (not_le.mpr hp100)

theorem computeVerdict_eq_YELLOW (ps : List ℚ) (hle : ∀ p ∈ ps, p ≤ 100)
    (hnot : ∃ p ∈ ps, ¬p < 50) : computeVerdict ps = Verdict.YELLOW := by
  unfold computeVerdict
  split_ifs with h1 h2
  · simp only [List.any_eq_true, decide_eq_true_eq] at h1
    obtain ⟨p, hp, hp100⟩ := h1
    exact absurd (hle p hp) (not_le.mpr hp100)
  · simp only [List.all_eq_true, decide_eq_true_eq] at h2
    obtain ⟨p, hp, hp50⟩ := hnot
    exact absurd (h2 p hp) hp50
  · rfl

/-! ### Claim theorems -/

/-- C1: for every list of threshold percentages, the computed verdict is RED
iff some percentage is strictly greater than 100 (RED checked first, taking
precedence); otherwise GREEN iff all percentages are below 50; otherwise
YELLOW; and exactly 100 does not trigger RED — together with the spec's five
concrete example lists. -/
theorem C1_verdict_classification (ps : List ℚ) :
    (computeVerdict ps = Verdict.RED ↔ ∃ p ∈ ps, p > 100) ∧
    ((∀ p ∈ ps, p ≤ 100) → (computeVerdict ps = Verdict.GREEN ↔ ∀ p ∈ ps, p < 50)) ∧
    ((∀ p ∈ ps, p ≤ 100) → (∃ p ∈ ps, ¬p < 50) → computeVerdict ps = Verdict.YELLOW) ∧
    computeVerdict [101, 10, 10] = Verdict.RED ∧
    computeVerdict [10, 10, 10] = Verdict.GREEN ∧
    computeVerdict [60, 10, 10] = Verdict.YELLOW ∧
    computeVerdict [100, 10, 10] = Verdict.YELLOW ∧
    computeVerdict [0, 0, 0] = Verdict.GREEN := by
  refine ⟨computeVerdict_eq_RED_iff ps,
    fun hle => computeVerdict_eq_GREEN_iff ps hle,
    fun hle hnot => computeVerdict_eq_YELLOW ps hle hnot, ?_, ?_, ?_, ?_, ?_⟩ <;>
    (rw [computeVerdict]; norm_num)

/-- Witness for C1: instantiation at the list `[100, 10, 10]`, discharging the
hypotheses of the GREEN and YELLOW clauses there. -/
theorem C1_verdict_classification_witness :
    computeVerdict [100, 10, 10] = Verdict.YELLOW := by
  have h := (C1_verdict_classification [100, 10, 10]).2.2.1
  refine h ?_ ?_
  · intro p hp
    simp only [List.mem_cons, List.not_mem_nil, or_false] at hp
    rcases hp with rfl | rfl | rfl <;> norm_num
  · exact ⟨100, by norm_num⟩

/-- C3: the percentage computed by `_make_status_msg` for a (count, threshold)
pair with threshold `T > 0` equals `100 * C / T`, and for fixed `T` it is
monotone non-decreasing in the count. -/
theorem C3_percentage_formula_monotone (T : Nat) (hT : 0 < T)
    (scope_ bf_type : String) :
    (∀ C : Nat, (makeStatusMsg scope_ bf_type C T).2 = 100 * (C : ℚ) / (T : ℚ)) ∧
    (∀ c1 c2 : Nat, c1 ≤ c2 →
      (makeStatusMsg scope_ bf_type c1 T).2 ≤ (makeStatusMsg scope_ bf_type c2 T).2) := by
  have hT' : (0 : ℚ) < (T : ℚ) := by exact_mod_cast hT
  constructor
  · intro C
    simp only [makeStatusMsg]
    ring
  · intro c1 c2 hc
    simp only [makeStatusMsg]
    have hc' : (c1 : ℚ) ≤ (c2 : ℚ) := by exact_mod_cast hc
    gcongr

/-- Witness for C3: instantiation at threshold 30, count 31, giving the spec's
end-to-end example `31 / 30 * 100 = 3100 / 30 > 100`. -/
theorem C3_percentage_formula_monotone_witness :
    (makeStatusMsg "Overall" "Hot" 31 30).2 = 100 * (31 : ℚ) / (30 : ℚ) ∧
    (makeStatusMsg "Overall" "Hot" 30 30).2 ≤ (makeStatusMsg "Overall" "Hot" 31 30).2 := by
  have h := C3_percentage_formula_monotone 30 (by norm_num) "Overall" "Hot"
  exact ⟨h.1 31, h.2 30 31 (by norm_num)⟩

/-- C4: the six percentage computations of `_get_bf_counts_status` use exactly
the threshold constants of the table (overall 30 / 100 / 30, per-team
7 / 20 / 10), each constant is positive, and hence each denominator of the
percentage divisions is non-zero on every run. -/
theorem C4_threshold_table (r : BFsReport) :
    (OVERALL_HOT_BF_COUNT_THRESHOLD = 30 ∧ OVERALL_COLD_BF_COUNT_THRESHOLD = 100 ∧
      OVERALL_PERF_BF_COUNT_THRESHOLD = 30 ∧ PER_TEAM_HOT_BF_COUNT_THRESHOLD = 7 ∧
      PER_TEAM_COLD_BF_COUNT_THRESHOLD = 20 ∧ PER_TEAM_PERF_BF_COUNT_THRESHOLD = 10) ∧
    (0 < OVERALL_HOT_BF_COUNT_THRESHOLD ∧ 0 < OVERALL_COLD_BF_COUNT_THRESHOLD ∧
      0 < OVERALL_PERF_BF_COUNT_THRESHOLD ∧ 0 < PER_TEAM_HOT_BF_COUNT_THRESHOLD ∧
      0 < PER_TEAM_COLD_BF_COUNT_THRESHOLD ∧ 0 < PER_TEAM_PERF_BF_COUNT_THRESHOLD) ∧
    bfCountPercentages r =
      [(overallHotBfCount r : ℚ) / 30 * 100,
        (overallColdBfCount r : ℚ) / 100 * 100,
        (overallPerfBfCount r : ℚ) / 30 * 100,
        (maxPerTeamHotBfCount r : ℚ) / 7 * 100,
        (maxPerTeamColdBfCount r : ℚ) / 20 * 100,
        (maxPerTeamPerfBfCount r : ℚ) / 10 * 100] ∧
    ((OVERALL_HOT_BF_COUNT_THRESHOLD : ℚ) ≠ 0 ∧
      (OVERALL_COLD_BF_COUNT_THRESHOLD : ℚ) ≠ 0 ∧
      (OVERALL_PERF_BF_COUNT_THRESHOLD : ℚ) ≠ 0 ∧
      (PER_TEAM_HOT_BF_COUNT_THRESHOLD : ℚ) ≠ 0 ∧
      (PER_TEAM_COLD_BF_COUNT_THRESHOLD : ℚ) ≠ 0 ∧
      (PER_TEAM_PERF_BF_COUNT_THRESHOLD : ℚ) ≠ 0) := by
  refine ⟨⟨rfl, rfl, rfl, rfl, rfl, rfl⟩,
    ⟨by norm_num [OVERALL_HOT_BF_COUNT_THRESHOLD],
      by norm_num [OVERALL_COLD_BF_COUNT_THRESHOLD],
      by norm_num [OVERALL_PERF_BF_COUNT_THRESHOLD],
      by norm_num [PER_TEAM_HOT_BF_COUNT_THRESHOLD],
      by norm_num [PER_TEAM_COLD_BF_COUNT_THRESHOLD],
      by norm_num [PER_TEAM_PERF_BF_COUNT_THRESHOLD]⟩, ?_, ?_⟩
  · simp only [bfCountPercentages, getBfCountsStatus, makeStatusMsg,
      OVERALL_HOT_BF_COUNT_THRESHOLD, OVERALL_COLD_BF_COUNT_THRESHOLD,
      OVERALL_PERF_BF_COUNT_THRESHOLD, PER_TEAM_HOT_BF_COUNT_THRESHOLD,
      PER_TEAM_COLD_BF_COUNT_THRESHOLD, PER_TEAM_PERF_BF_COUNT_THRESHOLD]
    norm_num
  · refine ⟨?_, ?_, ?_, ?_, ?_, ?_⟩ <;>
      norm_num [OVERALL_HOT_BF_COUNT_THRESHOLD, OVERALL_COLD_BF_COUNT_THRESHOLD,
        OVERALL_PERF_BF_COUNT_THRESHOLD, PER_TEAM_HOT_BF_COUNT_THRESHOLD,
        PER_TEAM_COLD_BF_COUNT_THRESHOLD, PER_TEAM_PERF_BF_COUNT_THRESHOLD]

/-- Witness for C4: instantiation at the empty report. -/
theorem C4_threshold_table_witness :
    bfCountPercentages BFsReport.empty =
      [(overallHotBfCount BFsReport.empty : ℚ) / 30 * 100,
        (overallColdBfCount BFsReport.empty : ℚ) / 100 * 100,
        (overallPerfBfCount BFsReport.empty : ℚ) / 30 * 100,
        (maxPerTeamHotBfCount BFsReport.empty : ℚ) / 7 * 100,
        (maxPerTeamColdBfCount BFsReport.empty : ℚ) / 20 * 100,
        (maxPerTeamPerfBfCount BFsReport.empty : ℚ) / 10 * 100] :=
  (C4_threshold_table BFsReport.empty).2.2.1

/-! ### Fold-maximum helper lemmas for the per-team loop -/

theorem foldl_runningMax_eq_foldl_max {α : Type} (g : α → Nat) (l : List α) (a : Nat) :
    l.foldl (fun m x => if g x > m then g x else m) a =
      l.foldl (fun m x => max m (g x)) a := by
  induction l generalizing a with
  | nil => rfl
  | cons y l ih =>
      simp only [List.foldl_cons]
      have hstep : (if g y > a then g y else a) = max a (g y) := by
        split_ifs with hgy
        · exact (max_eq_right (le_of_lt hgy)).symm
        · exact (max_eq_left (le_of_not_lt hgy)).symm
      rw [hstep, ih]

theorem le_foldl_max {α : Type} (g : α → Nat) (l : List α) (a : Nat) :
    a ≤ l.foldl (fun m x => max m (g x)) a := by
  induction l generalizing a with
  | nil => exact le_refl a
  | cons y l ih =>
      simp only [List.foldl_cons]
      exact le_trans (le_max_left a (g y)) (ih (max a (g y)))

theorem mem_le_foldl_max {α : Type} (g : α → Nat) (l : List α) (a : Nat) :
    ∀ x ∈ l, g x ≤ l.foldl (fun m x => max m (g x)) a := by
  induction l generalizing a with
  | nil => intro x hx; simp at hx
  | cons y l ih =>
      intro x hx
      simp only [List.foldl_cons]
      rcases List.mem_cons.mp hx with rfl | hx'
      · exact le_trans (le_max_right a (g x)) (le_foldl_max g l _)
      · exact ih (max a (g y)) x hx'

theorem foldl_max_attained {α : Type} (g : α → Nat) (l : List α) (a : Nat) :
    l.foldl (fun m x => max m (g x)) a = a ∨
      ∃ x ∈ l, g x = l.foldl (fun m x => max m (g x)) a := by
  induction l generalizing a with
  | nil => exact Or.inl rfl
  | cons y l ih =>
      simp only [List.foldl_cons]
      rcases ih (max a (g y)) with h | ⟨x, hx, hgx⟩
      · rcases le_total a (g y) with hm | hm
        · exact Or.inr ⟨y, List.mem_cons_self y l, by rw [h, max_eq_right hm]⟩
        · exact Or.inl (by rw [h, max_eq_left hm])
      · exact Or.inr ⟨x, List.mem_cons_of_mem y hx, hgx⟩

/-- C5: the per-team figure of each category equals the maximum, over every
team in the report's set of assigned teams, of that category's count
restricted to that team (an upper bound that is attained unless it is 0), and
with no tickets added to the report each maximum is 0. -/
theorem C5_max_per_team (r : BFsReport) (test_types : List TestType)
    (bf_temperatures : List BfTemperature) :
    (∀ team ∈ r.all_assigned_teams,
      r.get_bf_count test_types bf_temperatures (some team) ≤
        maxPerTeamCount r test_types bf_temperatures) ∧
    (maxPerTeamCount r test_types bf_temperatures = 0 ∨
      ∃ team ∈ r.all_assigned_teams,
        r.get_bf_count test_types bf_temperatures (some team) =
          maxPerTeamCount r test_types bf_temperatures) ∧
    (∀ info : EvgProjectsInfo,
      maxPerTeamCount (makeBfsReport [] info) test_types bf_temperatures = 0) := by
  have hrw : maxPerTeamCount r test_types bf_temperatures =
      r.all_assigned_teams.foldl
        (fun m team => max m (r.get_bf_count test_types bf_temperatures (some team))) 0 := by
    unfold maxPerTeamCount
    exact foldl_runningMax_eq_foldl_max
      (fun team => r.get_bf_count test_types bf_temperatures (some team))
      r.all_assigned_teams 0
  refine ⟨?_, ?_, ?_⟩
  · intro team hteam
    rw [hrw]
    exact mem_le_foldl_max
      (fun team => r.get_bf_count test_types bf_temperatures (some team))
      r.all_assigned_teams 0 team hteam
  · rw [hrw]
    exact foldl_max_attained
      (fun team => r.get_bf_count test_types bf_temperatures (some team))
      r.all_assigned_teams 0
  · intro info
    rfl

/-- Witness for C5: a concrete report with two teams, one holding 2 hot
correctness BFs and the other 1; the per-team Hot figure is bounded below by
each team's own count. -/
theorem C5_max_per_team_witness :
    BFsReport.get_bf_count
        ⟨[⟨"BF-1", "teamA", TestType.CORRECTNESS, BfTemperature.HOT, ["p1"]⟩,
          ⟨"BF-2", "teamA", TestType.CORRECTNESS, BfTemperature.HOT, ["p1"]⟩,
          ⟨"BF-3", "teamB", TestType.CORRECTNESS, BfTemperature.HOT, ["p1"]⟩],
          ["teamA", "teamB"]⟩
        [TestType.CORRECTNESS] [BfTemperature.HOT] (some "teamA") ≤
      maxPerTeamCount
        ⟨[⟨"BF-1", "teamA", TestType.CORRECTNESS, BfTemperature.HOT, ["p1"]⟩,
          ⟨"BF-2", "teamA", TestType.CORRECTNESS, BfTemperature.HOT, ["p1"]⟩,
          ⟨"BF-3", "teamB", TestType.CORRECTNESS, BfTemperature.HOT, ["p1"]⟩],
          ["teamA", "teamB"]⟩
        [TestType.CORRECTNESS] [BfTemperature.HOT] := by
  exact (C5_max_per_team _ [TestType.CORRECTNESS] [BfTemperature.HOT]).1 "teamA"
    (by decide)

/-- C6: a ticket with test type CORRECTNESS and temperature NONE is counted in
exactly one of the three evaluated categories, the Cold+Unclassified one: on a
report holding just that ticket the hot count (temperature HOT only) is 0, the
cold count (CORRECTNESS with temperatures COLD and NONE) is 1, and the
performance count (test type PERFORMANCE, all temperatures) is 0, so the three
category predicates are pairwise disjoint on such a ticket and it is counted
exactly once across the categories. -/
theorem C6_unclassified_correctness_in_cold_only (bf : BfIssue) (teams : List String)
    (h1 : bf.test_type = TestType.CORRECTNESS) (h2 : bf.temperature = BfTemperature.NONE) :
    overallColdBfCount ⟨[bf], teams⟩ = 1 ∧
    overallHotBfCount ⟨[bf], teams⟩ = 0 ∧
    overallPerfBfCount ⟨[bf], teams⟩ = 0 ∧
    overallHotBfCount ⟨[bf], teams⟩ + overallColdBfCount ⟨[bf], teams⟩ +
      overallPerfBfCount ⟨[bf], teams⟩ = 1 := by
  refine ⟨?_, ?_, ?_, ?_⟩ <;>
    simp [overallColdBfCount, overallHotBfCount, overallPerfBfCount,
      BFsReport.get_bf_count, List.filter, h1, h2]

/-- Witness for C6: a concrete unclassified correctness ticket. -/
theorem C6_unclassified_correctness_in_cold_only_witness :
    overallColdBfCount
        ⟨[⟨"BF-9", "teamA", TestType.CORRECTNESS, BfTemperature.NONE, ["p1"]⟩], ["teamA"]⟩ = 1 ∧
    overallHotBfCount
        ⟨[⟨"BF-9", "teamA", TestType.CORRECTNESS, BfTemperature.NONE, ["p1"]⟩], ["teamA"]⟩ = 0 ∧
    overallPerfBfCount
        ⟨[⟨"BF-9", "teamA", TestType.CORRECTNESS, BfTemperature.NONE, ["p1"]⟩], ["teamA"]⟩ = 0 ∧
    overallHotBfCount
        ⟨[⟨"BF-9", "teamA", TestType.CORRECTNESS, BfTemperature.NONE, ["p1"]⟩], ["teamA"]⟩ +
      overallColdBfCount
        ⟨[⟨"BF-9", "teamA", TestType.CORRECTNESS, BfTemperature.NONE, ["p1"]⟩], ["teamA"]⟩ +
      overallPerfBfCount
        ⟨[⟨"BF-9", "teamA", TestType.CORRECTNESS, BfTemperature.NONE, ["p1"]⟩], ["teamA"]⟩ = 1 :=
  C6_unclassified_correctness_in_cold_only
    ⟨"BF-9", "teamA", TestType.CORRECTNESS, BfTemperature.NONE, ["p1"]⟩ ["teamA"] rfl rfl

/-- C7: for every run at current time `t` (seconds since epoch, UTC), the
analysis window ends at 00:00 UTC of the day before `t`'s UTC date (one day
before the start of `t`'s day, itself a day boundary at or before `t`), spans
exactly 14 days back from that end, and is partitioned into the 14 consecutive
one-day sub-windows `[end - (d+1) days, end - d days)` iterated most recent
first for `d = 0..13`: sub-window 0 ends at the window end, each sub-window
spans exactly one day, consecutive sub-windows abut, and sub-window 13 starts
at the window start. -/
theorem C7_lookback_window_partition (t : Int) :
    windowEnd t = startOfUtcDay t - SECONDS_PER_DAY ∧
    startOfUtcDay t % SECONDS_PER_DAY = 0 ∧
    startOfUtcDay t ≤ t ∧
    t < startOfUtcDay t + SECONDS_PER_DAY ∧
    windowEnd t % SECONDS_PER_DAY = 0 ∧
    windowEnd t - windowStart t = 14 * SECONDS_PER_DAY ∧
    (dayWindows t).length = 14 ∧
    (∀ d : Nat, d < 14 → (dayWindows t).get? d =
      some (windowEnd t - ((d : Int) + 1) * SECONDS_PER_DAY,
        windowEnd t - (d : Int) * SECONDS_PER_DAY)) ∧
    (∀ d : Nat, (dayWindow t d).2 - (dayWindow t d).1 = SECONDS_PER_DAY) ∧
    (∀ d : Nat, (dayWindow t (d + 1)).2 = (dayWindow t d).1) ∧
    (dayWindow t 0).2 = windowEnd t ∧
    (dayWindow t 13).1 = windowStart t := by
  refine ⟨rfl, ?_, ?_, ?_, ?_, ?_, ?_, ?_, ?_, ?_, ?_, ?_⟩
  · simp only [startOfUtcDay, SECONDS_PER_DAY]
    omega
  · simp only [startOfUtcDay, SECONDS_PER_DAY]
    omega
  · simp only [startOfUtcDay, SECONDS_PER_DAY]
    omega
  · simp only [windowEnd, startOfUtcDay, SECONDS_PER_DAY]
    omega
  · simp only [windowStart, windowEnd, EVERGREEN_LOOKBACK_DAYS, SECONDS_PER_DAY]
    norm_num
  · simp only [dayWindows, List.length_map, List.length_range, EVERGREEN_LOOKBACK_DAYS]
  · intro d hd
    have hd' : d < EVERGREEN_LOOKBACK_DAYS := hd
    simp only [dayWindows]
    rw [List.get?_map, List.get?_range hd']
    simp only [Option.map_some', dayWindow, Option.some.injEq, Prod.mk.injEq]
    constructor <;> ring_nf
  · intro d
    simp only [dayWindow]
    omega
  · intro d
    simp only [dayWindow]
    push_cast
    ring
  · simp only [dayWindow]
    norm_num
  · simp only [dayWindow, windowStart, EVERGREEN_LOOKBACK_DAYS, SECONDS_PER_DAY]
    omega

/-- Witness for C7: at `t = 1700000000` (2023-11-14 22:13:20 UTC), sub-window
3 of the lookback partition is exactly one day ending three days before the
window end. -/
theorem C7_lookback_window_partition_witness :
    (dayWindows 1700000000).get? 3 =
      some (windowEnd 1700000000 - ((3 : Int) + 1) * SECONDS_PER_DAY,
        windowEnd 1700000000 - (3 : Int) * SECONDS_PER_DAY) :=
  (C7_lookback_window_partition 1700000000).2.2.2.2.2.2.2.1 3 (by norm_num)

/-! ### Error propagation through the waterfall status fold -/

theorem median_nil_eq_error :
    median [] = Except.error "StatisticsError: no median for empty data" := rfl

theorem foldlM_waterfall_error {l : List (String × List TaskStatusCounts)}
    {pr : String × List TaskStatusCounts} (hmem : pr ∈ l) (hempty : pr.2 = []) :
    ∀ init : String,
      ∃ e, l.foldlM
        (fun status_message q =>
          (median (q.2.map (fun c => (c.failed : ℚ)))).map
            (fun m => status_message ++ s!"\n{q.1}: {m}"))
        init = Except.error e := by
  induction l with
  | nil => exact absurd hmem (List.not_mem_nil pr)
  | cons a l ih =>
      intro init
      rcases List.mem_cons.mp hmem with rfl | hmem'
      · refine ⟨"StatisticsError: no median for empty data", ?_⟩
        simp only [List.foldlM_cons, hempty, List.map_nil, median_nil_eq_error]
        rfl
      · rcases hmedian : median (a.2.map (fun c => (c.failed : ℚ))) with e | m
        · refine ⟨e, ?_⟩
          simp only [List.foldlM_cons, hmedian]
          rfl
        · obtain ⟨e, he⟩ := ih hmem' (init ++ s!"\n{a.1}: {m}")
          refine ⟨e, ?_⟩
          simp only [List.foldlM_cons, hmedian]
          exact he

/-- C8: for every project of the waterfall report whose sequence of daily
failed-task tallies is empty, the median computation fails — `median` of the
empty list is an error, never `ok 0` or any other value — and the whole
waterfall redness status (hence the run) aborts with an error rather than
producing a status. -/
theorem C8_empty_median_fails (waterfall_report : List (String × List TaskStatusCounts))
    (pr : String × List TaskStatusCounts) (hmem : pr ∈ waterfall_report)
    (hempty : pr.2 = []) :
    median [] = Except.error "StatisticsError: no median for empty data" ∧
    (∀ q : ℚ, median (pr.2.map (fun c => (c.failed : ℚ))) ≠ Except.ok q) ∧
    ∃ e, getWaterfallRednessStatus waterfall_report = Except.error e := by
  refine ⟨median_nil_eq_error, ?_, ?_⟩
  · intro q hq
    rw [hempty] at hq
    simp only [List.map_nil, median_nil_eq_error] at hq
    exact Except.noConfusion hq
  · exact foldlM_waterfall_error hmem hempty
      "`[STATUS]` Evergreen waterfall red and purple boxes median count per day"

/-- Witness for C8: a report where project `p2` has no daily tallies. -/
theorem C8_empty_median_fails_witness :
    ∃ e, getWaterfallRednessStatus
        [("p1", [⟨"p1", 3, 2⟩]), ("p2", [])] = Except.error e :=
  (C8_empty_median_fails [("p1", [⟨"p1", 3, 2⟩]), ("p2", [])] ("p2", [])
    (by simp) rfl).2.2

/-- C9: for a branch whose active-project set is empty, the run fails with an
error (the `KeyError` of the `branch_to_projects_map[branch]` lookup) before
any verdict is emitted; it does not complete with all six BF counts zero and a
GREEN verdict. -/
theorem C9_empty_active_projects_fails (activeProjects : List (String × String))
    (branch : String) (active_bfs : List BfIssue)
    (day_query : Nat → List TaskStatusCounts)
    (hempty : (evgProjectsInfoFromActiveProjects activeProjects).active_project_names = []) :
    evaluateBuildRedness (evgProjectsInfoFromActiveProjects activeProjects) branch
        active_bfs day_query =
      Except.error "KeyError: branch not in branch_to_projects_map" ∧
    ∀ res : String × Verdict,
      evaluateBuildRedness (evgProjectsInfoFromActiveProjects activeProjects) branch
          active_bfs day_query ≠ Except.ok res := by
  have hnil : activeProjects = [] := by
    simpa only [evgProjectsInfoFromActiveProjects, List.map_eq_nil_iff] using hempty
  subst hnil
  refine ⟨rfl, ?_⟩
  intro res hres
  exact Except.noConfusion (hres.symm.trans (rfl :
    evaluateBuildRedness (evgProjectsInfoFromActiveProjects []) branch active_bfs day_query =
      Except.error "KeyError: branch not in branch_to_projects_map"))

/-- Witness for C9: the concrete empty active-project list. -/
theorem C9_empty_active_projects_fails_witness :
    evaluateBuildRedness (evgProjectsInfoFromActiveProjects []) "master" []
        (fun _ => []) =
      Except.error "KeyError: branch not in branch_to_projects_map" :=
  (C9_empty_active_projects_fails [] "master" [] (fun _ => []) rfl).1

theorem bfCountPercentages_eq_of_sixCounts_eq {r1 r2 : BFsReport}
    (h : sixCounts r1 = sixCounts r2) :
    bfCountPercentages r1 = bfCountPercentages r2 := by
  simp only [sixCounts, Prod.mk.injEq] at h
  obtain ⟨h1, h2, h3, h4, h5, h6⟩ := h
  simp only [bfCountPercentages, getBfCountsStatus, makeStatusMsg, h1, h2, h3, h4, h5, h6]

theorem verdict_of_ok_run {info : EvgProjectsInfo} {branch : String}
    {active_bfs : List BfIssue} {day_query : Nat → List TaskStatusCounts}
    {res : String × Verdict}
    (h : evaluateBuildRedness info branch active_bfs day_query = Except.ok res) :
    res.2 = computeVerdict (bfCountPercentages (makeBfsReport active_bfs info)) := by
  unfold evaluateBuildRedness at h
  split at h
  · exact Except.noConfusion h
  · simp only [] at h
    split at h
    · exact Except.noConfusion h
    · split at h
      · exact Except.noConfusion h
      · injection h with h'
        rw [← h']
        rfl

/-- C2: the verdict is a function of the six BF-count figures only.  For any
two runs over the same projects info and branch whose BFsReports yield
identical six counts, any verdicts the two runs produce are identical,
regardless of the waterfall task-status data each run saw; and every finished
run's verdict equals `computeVerdict` of the six BF-count percentages — the
waterfall medians only enter the status message, never the threshold list. -/
theorem C2_verdict_ignores_waterfall (info : EvgProjectsInfo) (branch : String)
    (bfs1 bfs2 : List BfIssue) (q1 q2 : Nat → List TaskStatusCounts)
    (hcounts : sixCounts (makeBfsReport bfs1 info) = sixCounts (makeBfsReport bfs2 info)) :
    (∀ res : String × Verdict,
      evaluateBuildRedness info branch bfs1 q1 = Except.ok res →
        res.2 = computeVerdict (bfCountPercentages (makeBfsReport bfs1 info))) ∧
    ((∃ res1, evaluateBuildRedness info branch bfs1 q1 = Except.ok res1) →
     (∃ res2, evaluateBuildRedness info branch bfs2 q2 = Except.ok res2) →
      verdictOf (evaluateBuildRedness info branch bfs1 q1) =
        verdictOf (evaluateBuildRedness info branch bfs2 q2)) := by
  refine ⟨fun res h => verdict_of_ok_run h, ?_⟩
  rintro ⟨res1, h1⟩ ⟨res2, h2⟩
  rw [h1, h2]
  simp only [verdictOf]
  rw [verdict_of_ok_run h1, verdict_of_ok_run h2,
    bfCountPercentages_eq_of_sixCounts_eq hcounts]

/-- Witness for C2: two runs over one project with no BF tickets, one seeing
no waterfall builds at all and the other seeing a red day on every day,
produce the same verdict. -/
theorem C2_verdict_ignores_waterfall_witness :
    verdictOf (evaluateBuildRedness
        (evgProjectsInfoFromActiveProjects [("p1", "master")]) "master" []
        (fun _ => [])) =
      verdictOf (evaluateBuildRedness
        (evgProjectsInfoFromActiveProjects [("p1", "master")]) "master" []
        (fun _ => [⟨"p1", 5, 3⟩])) :=
  (C2_verdict_ignores_waterfall
      (evgProjectsInfoFromActiveProjects [("p1", "master")]) "master" [] []
      (fun _ => []) (fun _ => [⟨"p1", 5, 3⟩]) rfl).2 ⟨_, rfl⟩ ⟨_, rfl⟩

/-! ### Structure lemmas for the waterfall report -/

theorem foldl_add_if_eq_filter (name : String) (l : List TaskStatusCounts)
    (init : TaskStatusCounts) :
    l.foldl (fun s b => if b.project == name then s.add b else s) init =
      (l.filter (fun b => b.project == name)).foldl TaskStatusCounts.add init := by
  induction l generalizing init with
  | nil => rfl
  | cons b l ih =>
      simp only [List.foldl_cons, List.filter_cons]
      by_cases hb : (b.project == name) = true
      · simp only [hb, if_true]
        rw [ih, List.foldl_cons]
      · simp only [Bool.not_eq_true] at hb
        simp only [hb, Bool.false_eq_true, if_false]
        exact ih init

theorem foldl_add_project (l : List TaskStatusCounts) (init : TaskStatusCounts) :
    (l.foldl TaskStatusCounts.add init).project = init.project := by
  induction l generalizing init with
  | nil => rfl
  | cons b l ih =>
      simp only [List.foldl_cons]
      rw [ih]
      rfl

theorem accumulate_eq_map_filter (names : List String) (ws : List TaskStatusCounts) :
    accumulateProjectStatuses names ws =
      names.map (fun name =>
        (ws.filter (fun b => b.project == name)).foldl TaskStatusCounts.add
          (TaskStatusCounts.identity name)) := by
  unfold accumulateProjectStatuses
  congr 1
  funext name
  exact foldl_add_if_eq_filter name ws (TaskStatusCounts.identity name)

theorem accumulate_mem_project (names : List String) (ws : List TaskStatusCounts) :
    ∀ c ∈ accumulateProjectStatuses names ws, c.project ∈ names := by
  intro c hc
  rw [accumulate_eq_map_filter] at hc
  obtain ⟨name, hname, rfl⟩ := List.mem_map.mp hc
  rw [foldl_add_project]
  exact hname

theorem accumulate_filter_length (names : List String) (ws : List TaskStatusCounts)
    (n : String) :
    ((accumulateProjectStatuses names ws).filter (fun c => c.project == n)).length =
      (names.filter (fun m => m == n)).length := by
  rw [accumulate_eq_map_filter, List.filter_map, List.length_map]
  congr 1
  apply List.filter_congr
  intro m _
  simp only [Function.comp_apply, foldl_add_project]
  rfl

theorem nodup_filter_beq_length (names : List String) (hnd : names.Nodup) (n : String)
    (hmem : n ∈ names) : (names.filter (fun m => m == n)).length = 1 := by
  induction names with
  | nil => exact absurd hmem (List.not_mem_nil n)
  | cons a l ih =>
      obtain ⟨hal, hl⟩ := List.nodup_cons.mp hnd
      rw [List.filter_cons]
      rcases List.mem_cons.mp hmem with rfl | hmem'
      · have hfl : l.filter (fun m => m == n) = [] := by
          rw [List.filter_eq_nil]
          intro x hx hxn
          exact hal (by rwa [eq_of_beq hxn] at hx)
        simp [hfl]
      · have han : (a == n) = false := by
          rcases hbeq : a == n with _ | _
          · rfl
          · exact absurd (by rwa [← eq_of_beq hbeq] at hmem') hal
        simp only [han, Bool.false_eq_true, if_false]
        exact ih hl hmem'

theorem foldl_append_eq {α β : Type} (g : α → List β) (l : List α) (acc : List β) :
    l.foldl (fun acc x => acc ++ g x) acc = acc ++ (l.map g).join := by
  induction l generalizing acc with
  | nil => simp
  | cons x l ih => simp [ih, List.append_assoc]

theorem filter_join {α : Type} (L : List (List α)) (p : α → Bool) :
    (L.join).filter p = (L.map (List.filter p)).join := by
  induction L with
  | nil => rfl
  | cons l L ih => simp [List.filter_append, ih]

theorem foldlM_appendByProject (keys : List String) (tsc : List TaskStatusCounts) :
    ∀ f : String → List TaskStatusCounts,
      (∀ c ∈ tsc, c.project ∈ keys) →
      tsc.foldlM appendByProject (keys.map (fun n => (n, f n))) =
        some (keys.map (fun n =>
          (n, f n ++ tsc.filter (fun c => c.project == n)))) := by
  induction tsc with
  | nil =>
      intro f _
      simp
  | cons c tsc ih =>
      intro f hproj
      have hc : c.project ∈ keys := hproj c (List.mem_cons_self c tsc)
      have hany : (keys.map (fun n => (n, f n))).any
          (fun pr => pr.1 == c.project) = true := by
        rw [List.any_eq_true]
        exact ⟨(c.project, f c.project), List.mem_map_of_mem _ hc, by simp⟩
      have hstep : appendByProject (keys.map (fun n => (n, f n))) c =
          some (keys.map (fun n =>
            (n, if n == c.project then f n ++ [c] else f n))) := by
        unfold appendByProject
        rw [if_pos hany, List.map_map]
        refine congrArg some (List.map_congr_left ?_)
        intro n _
        by_cases hn : n = c.project
        · subst hn
          simp [Function.comp_apply]
        · simp [Function.comp_apply, beq_eq_false_iff_ne.mpr hn, hn]
      have hrec := ih (fun n => if n == c.project then f n ++ [c] else f n)
        (fun c' hc' => hproj c' (List.mem_cons_of_mem c hc'))
      rw [List.foldlM_cons, hstep]
      show List.foldlM appendByProject
          (keys.map (fun n => (n, if n == c.project then f n ++ [c] else f n))) tsc =
        some (keys.map (fun n =>
          (n, f n ++ (c :: tsc).filter (fun c => c.project == n))))
      rw [hrec]
      refine congrArg some (List.map_congr_left ?_)
      intro n _
      by_cases hn : (n == c.project) = true
      · have heq : c.project = n := (eq_of_beq hn).symm
        simp only [hn, if_true, List.filter_cons, heq, beq_self_eq_true, if_pos,
          List.append_assoc, List.singleton_append]
      · simp only [Bool.not_eq_true] at hn
        have hn' : ¬n = c.project := by
          intro hcontra
          rw [hcontra, beq_self_eq_true] at hn
          exact Bool.noConfusion hn
        have hne2 : (c.project == n) = false :=
          beq_eq_false_iff_ne.mpr (fun hcontra => hn' hcontra.symm)
        simp only [hn, Bool.false_eq_true, if_false, List.filter_cons, hne2]

theorem length_join_of_all_one {α : Type} (L : List (List α))
    (h : ∀ l ∈ L, l.length = 1) : L.join.length = L.length := by
  induction L with
  | nil => rfl
  | cons l L ih =>
      simp only [List.join_cons, List.length_append, List.length_cons,
        h l (List.mem_cons_self l L),
        ih (fun l' hl' => h l' (List.mem_cons_of_mem l hl'))]
      omega

/-- C10: for every non-empty duplicate-free list of active project names and
14 days of query results, `_accumulate_project_statuses` emits exactly one
`TaskStatusCounts` per active project per day — the fold of exactly the
builds whose project matches, starting from the all-zero identity, builds of
other projects being discarded — and `_make_waterfall_report` succeeds (the
dictionary lookup by project never hits a `KeyError`), maps the projects in
order, and gives every active project exactly 14 daily tallies, so every
per-project median is taken over a non-empty list. -/
theorem C10_waterfall_report_shape (evg_project_names : List String)
    (day_results : List (List TaskStatusCounts))
    (hnodup : evg_project_names.Nodup) (hne : evg_project_names ≠ [])
    (hdays : day_results.length = EVERGREEN_LOOKBACK_DAYS) :
    (∀ ws : List TaskStatusCounts,
      accumulateProjectStatuses evg_project_names ws =
        evg_project_names.map (fun name =>
          (ws.filter (fun b => b.project == name)).foldl TaskStatusCounts.add
            (TaskStatusCounts.identity name))) ∧
    ∃ report, makeWaterfallReport evg_project_names day_results = some report ∧
      report.map Prod.fst = evg_project_names ∧
      ∀ pr ∈ report, pr.2.length = EVERGREEN_LOOKBACK_DAYS ∧ pr.2 ≠ [] := by
  have hne' : evg_project_names ≠ [] := hne
  refine ⟨fun ws => accumulate_eq_map_filter evg_project_names ws, ?_⟩
  have hproj : ∀ c ∈ (day_results.map
      (accumulateProjectStatuses evg_project_names)).join,
      c.project ∈ evg_project_names := by
    intro c hc
    obtain ⟨l, hl, hcl⟩ := List.mem_join.mp hc
    obtain ⟨ws, _, rfl⟩ := List.mem_map.mp hl
    exact accumulate_mem_project evg_project_names ws c hcl
  have hdedup : evg_project_names.dedup = evg_project_names :=
    List.dedup_eq_self.mpr hnodup
  have hrep : makeWaterfallReport evg_project_names day_results =
      some (evg_project_names.map (fun n =>
        (n, ((day_results.map (accumulateProjectStatuses evg_project_names)).join).filter
          (fun c => c.project == n)))) := by
    unfold makeWaterfallReport
    rw [foldl_append_eq, List.nil_append, hdedup]
    have hfold := foldlM_appendByProject evg_project_names
      ((day_results.map (accumulateProjectStatuses evg_project_names)).join)
      (fun _ => []) hproj
    rw [hfold]
    simp
  refine ⟨_, hrep, ?_, ?_⟩
  · rw [List.map_map]
    exact List.map_id evg_project_names
  · intro pr hpr
    obtain ⟨n, hn, rfl⟩ := List.mem_map.mp hpr
    have hlen : (((day_results.map
        (accumulateProjectStatuses evg_project_names)).join).filter
          (fun c => c.project == n)).length = EVERGREEN_LOOKBACK_DAYS := by
      rw [filter_join]
      rw [length_join_of_all_one]
      · rw [List.length_map, List.length_map, hdays]
      · intro l hl
        obtain ⟨l', hl', rfl⟩ := List.mem_map.mp hl
        obtain ⟨ws, _, rfl⟩ := List.mem_map.mp hl'
        rw [accumulate_filter_length]
        exact nodup_filter_beq_length evg_project_names hnodup n hn
    have hpos : 0 < (((day_results.map
        (accumulateProjectStatuses evg_project_names)).join).filter
          (fun c => c.project == n)).length := by
      rw [hlen]
      norm_num [EVERGREEN_LOOKBACK_DAYS]
    exact ⟨hlen, List.length_pos.mp hpos⟩

/-- Witness for C10: two projects over 14 empty days — the report exists and
both projects get 14 (identity) tallies. -/
theorem C10_waterfall_report_shape_witness :
    ∃ report, makeWaterfallReport ["p1", "p2"] (List.replicate 14 []) = some report ∧
      report.map Prod.fst = ["p1", "p2"] ∧
      ∀ pr ∈ report, pr.2.length = EVERGREEN_LOOKBACK_DAYS ∧ pr.2 ≠ [] :=
  (C10_waterfall_report_shape ["p1", "p2"] (List.replicate 14 [])
    (by simp) (by simp) (by simp [EVERGREEN_LOOKBACK_DAYS])).2

end MonitorBuildStatus
